import Mathlib

/-!
# A shallow embedding of the auth subsystem of goit-pythonweb-hw-012

This file embeds, as executable Lean definitions, the authentication core of
the repository: the credential hasher interface (`src/services/auth.py`,
class `Hash`), token issue/decode (`create_access_token`,
`create_email_token`, the `jwt.decode` call sites), the user repository
(`src/repositories/users.py`), the identity resolver with its Redis
lookaside cache (`src/services/auth.py`, `get_current_user`), the admin
gate (`get_current_admin_user`), and the account-lifecycle HTTP handlers
(`src/api/auth.py`: `register_user`, `login_user`, `confirmed_email`,
`forgot_password`, the `reset_password` route).

Modelling conventions:
* The database is a `List User`; SQLAlchemy `select ... scalar_one_or_none`
  becomes `List.find?`, and an in-place mutation of the fetched row becomes
  an update of the first matching element.
* Python exceptions are explicit: every handler returns `Except PyError _`.
  `PyError.httpException` is a raised `HTTPException`; `attributeError`,
  `typeError` and `keyError` are uncaught Python exceptions (surfaced by
  the framework as a 500 response).
* External collaborators (passlib's `CryptContext`, the redis client, the
  mail dispatcher) are modelled at their interface boundary; email dispatch
  is fire-and-forget background work with no effect on the handler's
  result, so it is dropped from the state.
-/

/-- Outcome of a raised Python exception inside a handler.  `httpException`
carries the HTTP status and detail of a FastAPI `HTTPException`; the other
constructors are uncaught builtin exceptions (rendered by the framework as
an internal server error, i.e. not a deliberate HTTP status). -/
inductive PyError where
  | httpException (statusCode : Nat) (detail : String)
  | attributeError (msg : String)
  | typeError (msg : String)
  | keyError (key : String)
  | cacheError (msg : String)
deriving Repr, DecidableEq

/-- `UserRole` enum from `src/database/models.py` (declared by the
`c3f039ae1897_add_user_role` migration: values ADMIN and USER). -/
inductive UserRole where
  | USER
  | ADMIN
deriving Repr, DecidableEq

/-- The `User` row. The model module itself is not under `src/`; the fields
are the ones read and written by the code under `src/` (api, repositories,
services) and listed by the spec's data model: id, username, email, hashed
password, verification flag, role, temp password. `password` and
`temp_password` are `Option` because `set_new_password`/`set_temp_password`
store `None` into them. -/
structure User where
  id : Nat
  username : String
  email : String
  password : Option String
  is_verified : Bool
  role : UserRole
  temp_password : Option String
deriving Repr, DecidableEq

/-- `UserCreate` request schema (`src/schemas/users.py`): username, email,
password, role — the role is client-supplied. -/
structure UserCreate where
  username : String
  email : String
  password : String
  role : UserRole
deriving Repr, DecidableEq

/-- `UserForgotPassword` request schema (`src/schemas/users.py`). -/
structure UserForgotPassword where
  user_data : String
  old_password : String
  new_password : String
deriving Repr, DecidableEq

namespace Hash

/-- Model of passlib's bcrypt `CryptContext.hash` at its interface
boundary: an injective one-way digest, so `verify p (hashString p)` holds
and distinct plaintexts give distinct digests. -/
def hashString (password : String) : String :=
  "$2b$" ++ password

/-- `Hash().get_password_hash(password)` — the bound-method call
(`src/services/auth.py:38`), used by `register_user` at
`src/api/auth.py:47`. -/
def get_password_hash (password : String) : String :=
  hashString password

/-- The call `Hash.get_password_hash(data.new_password)` at
`src/api/auth.py:225` accesses the instance method on the class and passes
a single positional argument, which Python binds to `self`; the required
`password` argument is missing, so the call raises `TypeError` before the
hash is ever computed. -/
def get_password_hash_unbound (_selfArg : String) : Except PyError String :=
  .error (.typeError
    "get_password_hash() missing 1 required positional argument: password")

/-- `Hash().verify_password(plain, hashed)` (`src/services/auth.py:25`):
passlib's `CryptContext.verify`. When the stored hash is `None` (a nulled
password column) passlib raises `TypeError` rather than returning `False`.
-/
def verify_password (plain : String) (hashed : Option String) :
    Except PyError Bool :=
  match hashed with
  | none => .error (.typeError "hash must be unicode or bytes, not NoneType")
  | some h => .ok (h == hashString plain)

end Hash

/-- Decoded JWT claims used by the code: the `sub` claim (absent if the
payload has no `sub` key) and the `exp` timestamp. -/
structure JwtPayload where
  sub : Option String
  exp : Nat
deriving Repr, DecidableEq

/-- A JWT as the verifier sees it: its claims plus whether its signature
verifies against the server secret (`config.JWT_SECRET`). -/
structure JwtToken where
  payload : JwtPayload
  sig_ok : Bool
deriving Repr, DecidableEq

/-- `jwt.decode(token, JWT_SECRET, algorithms=[JWT_ALGORITHM])`: fails
(`JWTError`, returned here as a message) on a bad signature or an expired
`exp`; otherwise yields the claims. -/
def jwt_decode (t : JwtToken) (now : Nat) : Except String JwtPayload :=
  if !t.sig_ok then .error "Signature verification failed."
  else if t.payload.exp < now then .error "Signature has expired."
  else .ok t.payload

/-- `create_access_token` (`src/services/auth.py:52`): session token with
`sub` from the data dict and `exp` = now + expiration window. -/
def create_access_token (sub : String) (now expirationSeconds : Nat) :
    JwtToken :=
  { payload := { sub := some sub, exp := now + expirationSeconds },
    sig_ok := true }

/-- `create_email_token` (`src/services/auth.py:75`): purpose token with a
fixed 7-day expiry. Both `send_email_for_confirm` and
`send_email_for_reset_password` (`src/services/email.py`) issue exactly
`create_email_token({"sub": email})`, so the two token kinds carry
identical claims. -/
def create_email_token (sub : String) (now : Nat) : JwtToken :=
  { payload := { sub := some sub, exp := now + 7 * 24 * 3600 },
    sig_ok := true }

/-- `UserRepository.get_user_by_email` (`src/repositories/users.py:46`):
first row whose email matches, else `None`. (`src/services/users.py` is
absent from the sources; per the spec's system-of-record interface the
`UserService` wrapper the handlers call delegates each operation to this
repository unchanged, which is how the handlers are embedded below.) -/
def get_user_by_email (db : List User) (email : String) : Option User :=
  db.find? (fun u => u.email == email)

/-- `UserRepository.get_user_by_username` (`src/repositories/users.py:60`).
-/
def get_user_by_username (db : List User) (username : String) : Option User :=
  db.find? (fun u => u.username == username)

/-- `select(User).where(User.id == ...)` in `get_current_user`
(`src/services/auth.py:131`). -/
def get_user_by_id (db : List User) (id : Nat) : Option User :=
  db.find? (fun u => u.id == id)

/-- Mutation of the row returned by a by-email fetch: update the first
element whose email matches, leave everything else in place. -/
def update_by_email (db : List User) (email : String) (f : User → User) :
    List User :=
  match db with
  | [] => []
  | u :: rest =>
    if u.email == email then f u :: rest
    else u :: update_by_email rest email f

/-- `UserRepository.create_user` (`src/repositories/users.py:24`): builds a
`User` from the schema fields and inserts it; the store assigns the id and
the defaults (`is_verified` false, no temp password) per the spec's
`Registered(unverified)` initial state. -/
def create_user (db : List User) (data : UserCreate) : List User × User :=
  let u : User :=
    { id := db.length + 1
      username := data.username
      email := data.email
      password := some data.password
      is_verified := false
      role := data.role
      temp_password := none }
  (db ++ [u], u)

/-- `UserRepository.set_user_verified` (`src/repositories/users.py:75`):
fetches by email and sets `is_verified = True`; on a missing row the
attribute assignment on `None` raises `AttributeError`. -/
def set_user_verified (db : List User) (email : String) :
    Except PyError (List User) :=
  match get_user_by_email db email with
  | none => .error (.attributeError "NoneType has no attribute is_verified")
  | some _ => .ok (update_by_email db email
      (fun u => { u with is_verified := true }))

/-- `UserRepository.set_new_password` (`src/repositories/users.py:104`):
stores the given value (possibly `None`) into the password column. -/
def set_new_password (db : List User) (password : Option String)
    (email : String) : Except PyError (List User) :=
  match get_user_by_email db email with
  | none => .error (.attributeError "NoneType has no attribute password")
  | some _ => .ok (update_by_email db email
      (fun u => { u with password := password }))

/-- `UserRepository.set_temp_password` (`src/repositories/users.py:116`):
stores the given value (possibly `None`) into the temp-password column. -/
def set_temp_password (db : List User) (password : Option String)
    (email : String) : Except PyError (List User) :=
  match get_user_by_email db email with
  | none => .error (.attributeError "NoneType has no attribute temp_password")
  | some _ => .ok (update_by_email db email
      (fun u => { u with temp_password := password }))

/-- `register_user` handler (`src/api/auth.py:19`): 409 when a principal
with the email exists, otherwise hash the password into the schema object,
insert, and return the new principal (the confirmation email is queued as a
background task and does not affect the result). No username check is
performed. -/
def register_user (db : List User) (user_data : UserCreate) :
    Except PyError (List User × User) :=
  match get_user_by_email db user_data.email with
  | some _ => .error (.httpException 409 "User has already exist")
  | none =>
    let hashed := Hash.get_password_hash user_data.password
    .ok (create_user db { user_data with password := hashed })

/-- `login_user` handler (`src/api/auth.py:56`): fetches by username, reads
`user.is_verified` first — on a missing user this dereferences `None` and
raises `AttributeError` — then 401 on an unverified account, then 401 on a
hash mismatch (`not user` on line 85 is unreachable for the `None` case),
else issues the session token with `sub` = username. -/
def login_user (db : List User) (username password : String)
    (now expirationSeconds : Nat) : Except PyError JwtToken :=
  match get_user_by_username db username with
  | none =>
    .error (.attributeError "NoneType object has no attribute is_verified")
  | some user =>
    if !user.is_verified then
      .error (.httpException 401 "Електронна адреса не підтверджена")
    else
      match Hash.verify_password password user.password with
      | .error e => .error e
      | .ok ok =>
        if !ok then .error (.httpException 401 "Incorrect email or password")
        else .ok (create_access_token user.username now expirationSeconds)

/-- `get_email_from_token` (`src/api/auth.py:125`): `jwt.decode` failures
(`JWTError`: bad signature or expired) become HTTP 422; a decoded payload
without a `sub` key makes `payload["sub"]` raise `KeyError`, which the
`except JWTError` clause does not catch. -/
def get_email_from_token (t : JwtToken) (now : Nat) :
    Except PyError String :=
  match jwt_decode t now with
  | .error _ =>
    .error (.httpException 422
      "Неправильний токен для перевірки електронної пошти")
  | .ok payload =>
    match payload.sub with
    | none => .error (.keyError "sub")
    | some email => .ok email

/-- `confirmed_email` handler (`src/api/auth.py:97`): decode the token to an
email, 400 when no principal has that email, informational no-op when the
principal is already verified, otherwise set the verification flag. -/
def confirmed_email (db : List User) (t : JwtToken) (now : Nat) :
    Except PyError (List User × String) :=
  match get_email_from_token t now with
  | .error e => .error e
  | .ok email =>
    match get_user_by_email db email with
    | none => .error (.httpException 400 "Verification error")
    | some user =>
      if user.is_verified then
        .ok (db, "Ваша електронна пошта вже підтверджена")
      else
        match set_user_verified db email with
        | .error e => .error e
        | .ok updated => .ok (updated, "Електронну пошту підтверджено")

/-- `forgot_password` handler (`src/api/auth.py:181`): resolve by email
with fallback to username (404 if neither), 400 on an old-password hash
mismatch, 400 when the new plaintext equals the stored value (a plaintext
vs. hash comparison; against a `None` password Python's `==` is `False`),
then `Hash.get_password_hash(data.new_password)` — the unbound-method call,
which raises `TypeError` — then stage the hash into `temp_password` and
queue the reset email. -/
def forgot_password (db : List User) (data : UserForgotPassword) :
    Except PyError (List User × String) :=
  let found :=
    match get_user_by_email db data.user_data with
    | some u => some u
    | none => get_user_by_username db data.user_data
  match found with
  | none => .error (.httpException 404 "User does not exist")
  | some user =>
    match Hash.verify_password data.old_password user.password with
    | .error e => .error e
    | .ok ok =>
      if !ok then .error (.httpException 400 "Incorrect old password")
      else if (match user.password with
               | some h => data.new_password == h
               | none => false) then
        .error (.httpException 400
          "New password must be different from the current password")
      else
        match Hash.get_password_hash_unbound data.new_password with
        | .error e => .error e
        | .ok temp_pass_hashed =>
          match set_temp_password db (some temp_pass_hashed) user.email with
          | .error e => .error e
          | .ok updated =>
            .ok (updated, "Check your email to confirm new password")

/-- The `reset_password` route handler (`src/api/auth.py:233`, also named
`confirmed_email` in the source): decode the token to an email, 400 when no
principal has it, then promote `temp_password` into `password` and clear
`temp_password`. Nothing checks that `temp_password` is non-null. -/
def reset_password (db : List User) (t : JwtToken) (now : Nat) :
    Except PyError (List User × String) :=
  match get_email_from_token t now with
  | .error e => .error e
  | .ok email =>
    match get_user_by_email db email with
    | none => .error (.httpException 400 "Verification error")
    | some user =>
      match set_new_password db user.temp_password email with
      | .error e => .error e
      | .ok db1 =>
        match set_temp_password db1 none email with
        | .error e => .error e
        | .ok db2 => .ok (db2, "Password successfully changed")

/-- The state of the Redis session cache (`src/database/redis.py` creates
the client; `get_current_user` uses `get`/`set`). Entries carry an absolute
expiry instant (`set ... ex=900` stores `now + 900`). `failGet`/`failSet`
model backend unavailability: a failing backend makes the corresponding
client call raise a connection error — the handler has no try/except around
either call. Values are the cached `str(user.id)`, modelled at the `int()`
boundary as the numeric id (the code only ever writes `str(user.id)`, so
the `ValueError` branch of `int()` is unreachable). -/
structure RedisState where
  entries : List (String × Nat × Nat)
  failGet : Bool
  failSet : Bool
deriving Repr, DecidableEq

/-- `redis_db.get(key)`: raises on a failing backend; otherwise the live
(unexpired) entry for the key, if any. -/
def redis_get (r : RedisState) (now : Nat) (key : String) :
    Except PyError (Option Nat) :=
  if r.failGet then .error (.cacheError "Error connecting to redis")
  else .ok ((r.entries.find?
      (fun e => e.1 == key && decide (now < e.2.2))).map (fun e => e.2.1))

/-- `redis_db.set(key, value, ex=ttl)`: raises on a failing backend;
otherwise replaces the entry for the key, expiring `ttl` seconds from now.
-/
def redis_set (r : RedisState) (now : Nat) (key : String) (value : Nat)
    (ttl : Nat) : Except PyError RedisState :=
  if r.failSet then .error (.cacheError "Error connecting to redis")
  else .ok { r with
    entries := (key, value, now + ttl) ::
      r.entries.filter (fun e => e.1 != key) }

/-- One system-of-record query performed by the identity resolver, recorded
so that theorems can speak about which lookups a resolution performed. -/
inductive Lookup where
  | byId (id : Nat)
  | byUsername (name : String)
deriving Repr, DecidableEq

/-- The fallback tail of `get_current_user` (`src/services/auth.py:138`):
the direct username lookup against the system-of-record, 401 when the
principal is missing, then the best-effort-in-intent (but uncaught) cache
write `redis_db.set(cache_key, str(user.id), ex=900)`. -/
def resolver_fallback (db : List User) (r : RedisState) (now : Nat)
    (username cache_key : String) (log : List Lookup) :
    Except PyError (User × RedisState × List Lookup) :=
  match get_user_by_username db username with
  | none =>
    .error (.httpException 401 "Could not validate credentials")
  | some user =>
    match redis_set r now cache_key user.id 900 with
    | .error e => .error e
    | .ok r2 => .ok (user, r2, log ++ [Lookup.byUsername username])

/-- `get_current_user` (`src/services/auth.py:91`), the identity resolver:
decode the bearer token (401 on `JWTError` or a falsy `sub`), consult the
cache under `curr_user:<username>`; on a hit fetch the row by id and return
it if present; otherwise fall back to the username lookup and populate the
cache. The returned `List Lookup` records the database queries made. -/
def get_current_user (db : List User) (r : RedisState) (now : Nat)
    (t : JwtToken) : Except PyError (User × RedisState × List Lookup) :=
  match jwt_decode t now with
  | .error _ => .error (.httpException 401 "Could not validate credentials")
  | .ok payload =>
    match payload.sub with
    | none => .error (.httpException 401 "Could not validate credentials")
    | some username =>
      if username == "" then
        .error (.httpException 401 "Could not validate credentials")
      else
        let cache_key := "curr_user:" ++ username
        match redis_get r now cache_key with
        | .error e => .error e
        | .ok user_id =>
          match user_id with
          | some uid =>
            (match get_user_by_id db uid with
             | some user => .ok (user, r, [Lookup.byId uid])
             | none =>
               resolver_fallback db r now username cache_key
                 [Lookup.byId uid])
          | none => resolver_fallback db r now username cache_key []

/-- `get_current_admin_user` (`src/services/auth.py:152`), the admin gate:
403 unless the resolved principal's role is ADMIN. -/
def get_current_admin_user (current_user : User) : Except PyError User :=
  if current_user.role != UserRole.ADMIN then
    .error (.httpException 403 "Недостатньо прав доступу")
  else .ok current_user

/-! ## Concrete fixtures used by closed theorems -/

/-- A verified principal on record. -/
def aliceRow : User :=
  { id := 1, username := "alice", email := "alice@example.com",
    password := some (Hash.hashString "oldpw"), is_verified := true,
    role := UserRole.USER, temp_password := none }

/-- A registration request reusing `aliceRow`'s username under a fresh
email. -/
def dupUsernameCreate : UserCreate :=
  { username := "alice", email := "bob@example.com", password := "pw2",
    role := UserRole.USER }

/-- A registration request reusing `aliceRow`'s email under a fresh
username. -/
def dupEmailCreate : UserCreate :=
  { username := "bob", email := "alice@example.com", password := "pw2",
    role := UserRole.USER }

/-- A registration request clashing with nothing. -/
def freshCreate : UserCreate :=
  { username := "bob", email := "bob@example.com", password := "pw2",
    role := UserRole.USER }

/-- An unauthenticated registration request that asks for the ADMIN role. -/
def malloryCreate : UserCreate :=
  { username := "mallory", email := "mallory@example.com", password := "pw",
    role := UserRole.ADMIN }

/-- The row `register_user` persists for `malloryCreate` on an empty store. -/
def mallory0 : User :=
  { id := 1, username := "mallory", email := "mallory@example.com",
    password := some (Hash.hashString "pw"), is_verified := false,
    role := UserRole.ADMIN, temp_password := none }

/-- `mallory0` after email confirmation. -/
def mallory1 : User :=
  { mallory0 with is_verified := true }

/-- A verified principal with no in-flight reset (`temp_password` null). -/
def resetUser : User :=
  { id := 7, username := "reset", email := "reset@example.com",
    password := some (Hash.hashString "current"), is_verified := true,
    role := UserRole.USER, temp_password := none }

/-- A principal mid-reset: `temp_password` staged with the hash of the new
password. -/
def stagedUser : User :=
  { id := 8, username := "staged", email := "staged@example.com",
    password := some (Hash.hashString "current"), is_verified := true,
    role := UserRole.USER, temp_password := some (Hash.hashString "newpw") }

/-- A healthy, empty session cache. -/
def emptyRedis : RedisState :=
  { entries := [], failGet := false, failSet := false }

/-- An unavailable cache backend: the `get` call raises. -/
def failingGetRedis : RedisState :=
  { entries := [], failGet := true, failSet := false }

/-- A cache backend that reads fine (and is empty) but whose `set` call
raises. -/
def failingSetRedis : RedisState :=
  { entries := [], failGet := false, failSet := true }

/-- The cache state after the resolver caches `u` at instant `now`. -/
def cacheAfter (u : User) (now : Nat) : RedisState :=
  { entries := [("curr_user:" ++ u.username, u.id, now + 900)],
    failGet := false, failSet := false }

/-- A token whose signature does not verify. -/
def badSigToken : JwtToken :=
  { payload := { sub := some "alice@example.com", exp := 1000 },
    sig_ok := false }

/-- A well-signed, unexpired token with no `sub` claim. -/
def noSubToken : JwtToken :=
  { payload := { sub := none, exp := 1000 }, sig_ok := true }

/-! ## List lemmas for a row sitting after rows that do not match -/

/-- `find?` over `pre ++ a :: post` returns `a` when nothing in `pre`
satisfies the predicate and `a` does. -/
theorem find?_append_first {α : Type} (pre post : List α) (p : α → Bool)
    (a : α) (hp : p a = true) (h : ∀ x ∈ pre, p x = false) :
    (pre ++ a :: post).find? p = some a := by
  induction pre with
  | nil => simp [List.find?_cons_of_pos, hp]
  | cons x rest ih =>
    have hx : p x = false := h x (List.mem_cons_self x rest)
    have := ih (fun y hy => h y (List.mem_cons_of_mem x hy))
    simpa [List.find?_cons_of_neg, hx] using this

/-- `update_by_email` over `pre ++ u :: post` rewrites exactly `u` when no
row of `pre` carries the email. -/
theorem update_by_email_append (pre post : List User) (u : User)
    (f : User → User) (h : ∀ v ∈ pre, v.email ≠ u.email) :
    update_by_email (pre ++ u :: post) u.email f = pre ++ f u :: post := by
  induction pre with
  | nil => simp [update_by_email]
  | cons v rest ih =>
    have hv : (v.email == u.email) = false := by
      simpa using h v (List.mem_cons_self v rest)
    have := ih (fun w hw => h w (List.mem_cons_of_mem v hw))
    simp [update_by_email, hv, this]

/-- By-email fetch over `pre ++ u :: post` when `pre` misses the email. -/
theorem get_user_by_email_append (pre post : List User) (u : User)
    (h : ∀ v ∈ pre, v.email ≠ u.email) :
    get_user_by_email (pre ++ u :: post) u.email = some u := by
  apply find?_append_first
  · simp
  · intro x hx
    simpa using h x hx

/-- By-username fetch over `pre ++ u :: post` when `pre` misses the
username. -/
theorem get_user_by_username_append (pre post : List User) (u : User)
    (h : ∀ v ∈ pre, v.username ≠ u.username) :
    get_user_by_username (pre ++ u :: post) u.username = some u := by
  apply find?_append_first
  · simp
  · intro x hx
    simpa using h x hx

/-- By-id fetch over `pre ++ u :: post` when `pre` misses the id. -/
theorem get_user_by_id_append (pre post : List User) (u : User)
    (h : ∀ v ∈ pre, v.id ≠ u.id) :
    get_user_by_id (pre ++ u :: post) u.id = some u := by
  apply find?_append_first
  · simp
  · intro x hx
    simpa using h x hx

/-! ## Claim theorems -/

/-- C1 (code bug): a principal resolvable by email whose stored hash
verifies the old password and whose new password passes the same-password
check does NOT complete ForgotPassword successfully: the handler dies with
`TypeError` at `Hash.get_password_hash(data.new_password)`
(`src/api/auth.py:225`), before `temp_password` is ever staged. -/
theorem C1_forgot_password_raises_type_error :
    forgot_password
      [{ id := 1, username := "alice", email := "alice@example.com",
         password := some (Hash.hashString "oldpw"), is_verified := true,
         role := UserRole.USER, temp_password := none }]
      { user_data := "alice@example.com", old_password := "oldpw",
        new_password := "newpw" } =
    .error (.typeError
      "get_password_hash() missing 1 required positional argument: password")
    := by
  rfl

/-- C3 (code bug): Login with a username that names no principal does not
fail with HTTP 401 — `user.is_verified` is read before the `not user` check
(`src/api/auth.py:78`), so the handler raises `AttributeError` on `None`
(an internal server error). -/
theorem C3_login_missing_user_attribute_error :
    login_user [] "ghost" "whatever" 0 3600 =
      .error (.attributeError
        "NoneType object has no attribute is_verified") := by
  rfl

/-- C4 counterexample: with `alice` on record, registering a second
principal with the same username but a fresh email is NOT rejected with
Conflict — it succeeds and persists a second row carrying the duplicate
username. -/
theorem C4_counterexample_duplicate_username_registers :
    register_user [aliceRow] dupUsernameCreate =
      .ok ([aliceRow,
        { id := 2, username := "alice", email := "bob@example.com",
          password := some (Hash.hashString "pw2"), is_verified := false,
          role := UserRole.USER, temp_password := none }],
        { id := 2, username := "alice", email := "bob@example.com",
          password := some (Hash.hashString "pw2"), is_verified := false,
          role := UserRole.USER, temp_password := none }) := by
  rfl

/-- C4 (amended): registration fails with Conflict (409) exactly when a
principal with the requested email exists; when the email is fresh the
request is persisted unconditionally — username uniqueness is not checked
by the operation. -/
theorem C4_registration_conflict_iff_email_exists (db : List User)
    (data : UserCreate) :
    (register_user db data =
        .error (.httpException 409 "User has already exist")
      ↔ (get_user_by_email db data.email).isSome)
    ∧ (get_user_by_email db data.email = none →
        register_user db data =
          .ok (create_user db
            { data with password := Hash.get_password_hash data.password })) := by
  unfold register_user
  cases h : get_user_by_email db data.email <;> simp [h]

/-- C4 witness: both halves of the amended statement at concrete inputs —
a duplicate email is rejected with 409, a fresh email is persisted. -/
theorem C4_registration_conflict_witness :
    (register_user [aliceRow] dupEmailCreate =
      .error (.httpException 409 "User has already exist"))
    ∧ register_user [aliceRow] freshCreate =
        .ok (create_user [aliceRow]
          { freshCreate with
              password := Hash.get_password_hash freshCreate.password }) :=
  ⟨(C4_registration_conflict_iff_email_exists [aliceRow] dupEmailCreate).1.mpr
      (by decide),
   (C4_registration_conflict_iff_email_exists [aliceRow] freshCreate).2
      (by decide)⟩

/-- C5 counterexample: with the principal present in the system-of-record
and a valid bearer token, an unavailable cache backend makes the resolver
raise the cache error instead of falling back — the resolution fails. -/
theorem C5_counterexample_cache_error_fails_resolution :
    get_current_user [aliceRow] failingGetRedis 0
      (create_access_token "alice" 0 3600) =
      .error (.cacheError "Error connecting to redis") := by
  rfl

/-- C5 (amended): a session-cache backend failure propagates out of the
resolver as the cache error rather than being recovered (there is no
try/except around either cache call): a failure on the cache read fails
every resolution of a valid token, and a failure on the cache write fails
every resolution that reaches the fresh-fetch path — a cache miss, or a
cached id that no longer resolves, with the principal present in the
system-of-record. -/
theorem C5_cache_failure_propagates (db : List User) (r : RedisState)
    (now : Nat) (t : JwtToken) (s : String)
    (hsig : t.sig_ok = true) (hexp : now ≤ t.payload.exp)
    (hsub : t.payload.sub = some s) (hs : s ≠ "") :
    (r.failGet = true →
      get_current_user db r now t =
        .error (.cacheError "Error connecting to redis"))
    ∧ (∀ u, get_user_by_username db s = some u → r.failSet = true →
        (redis_get r now ("curr_user:" ++ s) = .ok none ∨
          ∃ uid, redis_get r now ("curr_user:" ++ s) = .ok (some uid) ∧
            get_user_by_id db uid = none) →
        get_current_user db r now t =
          .error (.cacheError "Error connecting to redis")) := by
  have h1 : jwt_decode t now = .ok t.payload := by
    unfold jwt_decode
    rw [hsig]
    simp [Nat.not_lt.mpr hexp]
  have h2 : (s == "") = false := by
    simpa using hs
  constructor
  · intro hfail
    simp [get_current_user, h1, hsub, h2, redis_get, hfail]
  · intro u hfound hset hcache
    rcases hcache with hmiss | ⟨uid, hhit, hstale⟩
    · simp [get_current_user, h1, hsub, h2, hmiss, resolver_fallback,
        hfound, redis_set, hset]
    · simp [get_current_user, h1, hsub, h2, hhit, hstale,
        resolver_fallback, hfound, redis_set, hset]

/-- C5 witness: both failure modes at concrete states and tokens — a read
failure with the principal on record, and a write failure on the
fresh-fetch path after a cache miss. -/
theorem C5_cache_failure_witness :
    (get_current_user [] failingGetRedis 3
        (create_access_token "whoever" 0 3600) =
      .error (.cacheError "Error connecting to redis"))
    ∧ get_current_user [aliceRow] failingSetRedis 3
        (create_access_token "alice" 0 3600) =
      .error (.cacheError "Error connecting to redis") :=
  ⟨(C5_cache_failure_propagates [] failingGetRedis 3
      (create_access_token "whoever" 0 3600) "whoever" rfl (by decide) rfl
      (by decide)).1 rfl,
   (C5_cache_failure_propagates [aliceRow] failingSetRedis 3
      (create_access_token "alice" 0 3600) "alice" rfl (by decide) rfl
      (by decide)).2 aliceRow rfl rfl (Or.inl rfl)⟩

/-- C6 (amended): the ConfirmEmail failure statuses are not the uniform 400
the claim states: a `jwt.decode` failure (bad signature or expired) is
reported as HTTP 422, a decoded payload lacking the `sub` claim raises an
uncaught `KeyError`, and only an unknown decoded email yields HTTP 400 — so
the response does distinguish which check failed. -/
theorem C6_confirm_email_failure_statuses (db : List User) (t : JwtToken)
    (now : Nat) :
    (∀ msg, jwt_decode t now = .error msg →
        confirmed_email db t now = .error (.httpException 422
          "Неправильний токен для перевірки електронної пошти"))
    ∧ (∀ p, jwt_decode t now = .ok p → p.sub = none →
        confirmed_email db t now = .error (.keyError "sub"))
    ∧ (∀ p e, jwt_decode t now = .ok p → p.sub = some e →
        get_user_by_email db e = none →
        confirmed_email db t now =
          .error (.httpException 400 "Verification error")) := by
  refine ⟨?_, ?_, ?_⟩
  · intro msg hmsg
    simp [confirmed_email, get_email_from_token, hmsg]
  · intro p hp hsub
    simp [confirmed_email, get_email_from_token, hp, hsub]
  · intro p e hp hsub hfind
    simp [confirmed_email, get_email_from_token, hp, hsub, hfind]

/-- C6 counterexample: a token whose signature fails to verify makes
ConfirmEmail fail with HTTP 422, not the claimed HTTP 400. -/
theorem C6_counterexample_decode_failure_is_422 :
    confirmed_email [aliceRow] badSigToken 0 =
      .error (.httpException 422
        "Неправильний токен для перевірки електронної пошти") := by
  rfl

/-- C6 witness: the three failure shapes at concrete tokens — bad
signature, missing `sub` claim, unknown decoded email. -/
theorem C6_confirm_email_failure_witness :
    (confirmed_email [] badSigToken 0 =
      .error (.httpException 422
        "Неправильний токен для перевірки електронної пошти"))
    ∧ (confirmed_email [] noSubToken 0 = .error (.keyError "sub"))
    ∧ confirmed_email [] (create_email_token "ghost@example.com" 0) 0 =
        .error (.httpException 400 "Verification error") :=
  ⟨(C6_confirm_email_failure_statuses [] badSigToken 0).1 _ rfl,
   (C6_confirm_email_failure_statuses [] noSubToken 0).2.1 _ rfl rfl,
   (C6_confirm_email_failure_statuses []
      (create_email_token "ghost@example.com" 0) 0).2.2 _ _ rfl rfl rfl⟩

/-- The reset route on a token for `u`: whatever `temp_password` holds —
including `None` — is promoted into `password`, and `temp_password` is then
cleared. -/
theorem reset_password_append (pre post : List User) (u : User)
    (t : JwtToken) (now : Nat)
    (hpreE : ∀ v ∈ pre, v.email ≠ u.email)
    (hsig : t.sig_ok = true) (hexp : now ≤ t.payload.exp)
    (hsub : t.payload.sub = some u.email) :
    reset_password (pre ++ u :: post) t now =
      .ok (pre ++
        { u with password := u.temp_password, temp_password := none } :: post,
        "Password successfully changed") := by
  have hdec : get_email_from_token t now = .ok u.email := by
    unfold get_email_from_token jwt_decode
    rw [hsig]
    simp [Nat.not_lt.mpr hexp, hsub]
  have hfind := get_user_by_email_append pre post u hpreE
  have hup1 : update_by_email (pre ++ u :: post) u.email
      (fun w => { w with password := u.temp_password }) =
      pre ++ { u with password := u.temp_password } :: post :=
    update_by_email_append pre post u _ hpreE
  have hfind2 : get_user_by_email
      (pre ++ { u with password := u.temp_password } :: post) u.email =
      some { u with password := u.temp_password } :=
    get_user_by_email_append pre post _ hpreE
  have hup2 : update_by_email
      (pre ++ { u with password := u.temp_password } :: post) u.email
      (fun w => { w with temp_password := none }) =
      pre ++
        { u with password := u.temp_password, temp_password := none } :: post :=
    update_by_email_append pre post _ _ hpreE
  simp [reset_password, set_new_password, set_temp_password, hdec, hfind,
    hup1, hfind2, hup2]

/-- C2: a validly signed, unexpired purpose token whose subject email names
a principal with a null `temp_password` (e.g. a replayed email-confirmation
token — both token kinds are issued by `create_email_token({"sub": email})`
with identical claims) makes the reset route store `None` into the
principal's password, after which every Login for that principal fails
(401 when unverified, otherwise an uncaught passlib `TypeError` on the null
hash). -/
theorem C2_reset_null_temp_then_login_always_fails
    (pre post : List User) (u : User) (t : JwtToken) (now : Nat)
    (hpre : ∀ v ∈ pre, v.email ≠ u.email ∧ v.username ≠ u.username)
    (hsig : t.sig_ok = true) (hexp : now ≤ t.payload.exp)
    (hsub : t.payload.sub = some u.email)
    (htemp : u.temp_password = none) :
    reset_password (pre ++ u :: post) t now =
      .ok (pre ++ { u with password := none, temp_password := none } :: post,
        "Password successfully changed")
    ∧ ∀ (pw : String) (now2 ttl : Nat), ∃ e,
        login_user
          (pre ++ { u with password := none, temp_password := none } :: post)
          u.username pw now2 ttl = .error e := by
  constructor
  · have h := reset_password_append pre post u t now
      (fun v hv => (hpre v hv).1) hsig hexp hsub
    rw [htemp] at h
    exact h
  · intro pw now2 ttl
    have hfindu : get_user_by_username
        (pre ++ { u with password := none, temp_password := none } :: post)
        u.username = some { u with password := none, temp_password := none } :=
      get_user_by_username_append pre post _ (fun v hv => (hpre v hv).2)
    by_cases hv : u.is_verified
    · refine ⟨.typeError "hash must be unicode or bytes, not NoneType", ?_⟩
      simp only [login_user, hfindu]
      simp [hv, Hash.verify_password]
    · refine ⟨.httpException 401 "Електронна адреса не підтверджена", ?_⟩
      simp only [login_user, hfindu]
      simp [hv]

/-- C2 witness: `resetUser` (verified, null `temp_password`) at a concrete
replayed token; the reset succeeds, nulls the password, and the concrete
subsequent login fails. -/
theorem C2_reset_null_temp_witness :
    (reset_password [resetUser] (create_email_token "reset@example.com" 0) 5 =
      .ok ([{ resetUser with password := none, temp_password := none }],
        "Password successfully changed"))
    ∧ ∃ e, login_user
        [{ resetUser with password := none, temp_password := none }]
        "reset" "current" 7 3600 = .error e := by
  have h := C2_reset_null_temp_then_login_always_fails [] [] resetUser
    (create_email_token "reset@example.com" 0) 5 (by simp) rfl (by decide)
    rfl rfl
  exact ⟨h.1, h.2 "current" 7 3600⟩

/-- C8: for a principal with `temp_password = some tp` and a valid purpose
token for its email, the reset route moves `tp` into `password` and clears
`temp_password` to null. -/
theorem C8_reset_password_promotes_temp
    (pre post : List User) (u : User) (t : JwtToken) (now : Nat) (tp : String)
    (hpreE : ∀ v ∈ pre, v.email ≠ u.email)
    (hsig : t.sig_ok = true) (hexp : now ≤ t.payload.exp)
    (hsub : t.payload.sub = some u.email)
    (htemp : u.temp_password = some tp) :
    reset_password (pre ++ u :: post) t now =
      .ok (pre ++
        { u with password := some tp, temp_password := none } :: post,
        "Password successfully changed") := by
  have h := reset_password_append pre post u t now hpreE hsig hexp hsub
  rw [htemp] at h
  exact h

/-- C8 witness: `stagedUser` with a concrete staged hash and token. -/
theorem C8_reset_password_promotes_temp_witness :
    reset_password [stagedUser] (create_email_token "staged@example.com" 0) 5 =
      .ok ([{ stagedUser with
              password := some (Hash.hashString "newpw"),
              temp_password := none }],
        "Password successfully changed") :=
  C8_reset_password_promotes_temp [] [] stagedUser
    (create_email_token "staged@example.com" 0) 5 (Hash.hashString "newpw")
    (by simp) rfl (by decide) rfl rfl

/-- C10: ConfirmEmail on an already-verified principal with a valid purpose
token for its email returns the informational message and leaves the store
untouched — since the output state equals the input state, any number of
repeated invocations returns the same success. -/
theorem C10_confirm_email_idempotent
    (pre post : List User) (u : User) (t : JwtToken) (now : Nat)
    (hpreE : ∀ v ∈ pre, v.email ≠ u.email)
    (hsig : t.sig_ok = true) (hexp : now ≤ t.payload.exp)
    (hsub : t.payload.sub = some u.email)
    (hver : u.is_verified = true) :
    confirmed_email (pre ++ u :: post) t now =
      .ok (pre ++ u :: post, "Ваша електронна пошта вже підтверджена") := by
  have hdec : get_email_from_token t now = .ok u.email := by
    unfold get_email_from_token jwt_decode
    rw [hsig]
    simp [Nat.not_lt.mpr hexp, hsub]
  have hfind := get_user_by_email_append pre post u hpreE
  simp [confirmed_email, hdec, hfind, hver]

/-- C10 witness: the verified `aliceRow` at a concrete token and instant. -/
theorem C10_confirm_email_idempotent_witness :
    confirmed_email [aliceRow] (create_email_token "alice@example.com" 0) 5 =
      .ok ([aliceRow], "Ваша електронна пошта вже підтверджена") :=
  C10_confirm_email_idempotent [] [] aliceRow
    (create_email_token "alice@example.com" 0) 5 (by simp) rfl (by decide)
    rfl rfl

/-- C9: starting from an empty cache, one resolution of a valid bearer
token performs the username lookup and populates the cache with
(subject → id) expiring 900 seconds (15 minutes) later; a second resolution
of the same token before that instant performs only the id fetch — no
username lookup — and returns the same principal. -/
theorem C9_resolver_second_resolution_by_id_only
    (pre post : List User) (u : User) (t : JwtToken) (now now2 : Nat)
    (hpre : ∀ v ∈ pre, v.username ≠ u.username ∧ v.id ≠ u.id)
    (hsig : t.sig_ok = true) (hexp : now ≤ t.payload.exp)
    (hexp2 : now2 ≤ t.payload.exp)
    (hsub : t.payload.sub = some u.username) (hname : u.username ≠ "")
    (httl : now2 < now + 900) :
    get_current_user (pre ++ u :: post) emptyRedis now t =
      .ok (u, cacheAfter u now, [Lookup.byUsername u.username])
    ∧ get_current_user (pre ++ u :: post) (cacheAfter u now) now2 t =
      .ok (u, cacheAfter u now, [Lookup.byId u.id]) := by
  have hd1 : jwt_decode t now = .ok t.payload := by
    unfold jwt_decode
    rw [hsig]
    simp [Nat.not_lt.mpr hexp]
  have hd2 : jwt_decode t now2 = .ok t.payload := by
    unfold jwt_decode
    rw [hsig]
    simp [Nat.not_lt.mpr hexp2]
  have hnb : (u.username == "") = false := by
    simpa using hname
  have hfu : get_user_by_username (pre ++ u :: post) u.username = some u :=
    get_user_by_username_append pre post u (fun v hv => (hpre v hv).1)
  have hfi : get_user_by_id (pre ++ u :: post) u.id = some u :=
    get_user_by_id_append pre post u (fun v hv => (hpre v hv).2)
  constructor
  · simp [get_current_user, hd1, hsub, hnb, redis_get, emptyRedis,
      resolver_fallback, hfu, redis_set, cacheAfter]
  · simp [get_current_user, hd2, hsub, hnb, redis_get, cacheAfter, httl, hfi]

/-- C9 witness: `aliceRow` on record, a concrete session token, first
resolution at instant 0 and a second one at instant 10 (inside the
15-minute window). -/
theorem C9_resolver_second_resolution_witness :
    get_current_user [aliceRow] emptyRedis 0
      (create_access_token "alice" 0 3600) =
      .ok (aliceRow, cacheAfter aliceRow 0, [Lookup.byUsername "alice"])
    ∧ get_current_user [aliceRow] (cacheAfter aliceRow 0) 10
        (create_access_token "alice" 0 3600) =
      .ok (aliceRow, cacheAfter aliceRow 0, [Lookup.byId 1]) :=
  C9_resolver_second_resolution_by_id_only [] [] aliceRow
    (create_access_token "alice" 0 3600) 0 10 (by simp) rfl (by decide)
    (by decide) rfl (by decide) (by decide)

/-- C7: the unauthenticated registration endpoint persists the
client-supplied role verbatim, so a caller registering with role ADMIN, once
confirmed and logged in, resolves to a principal that the admin gate
accepts: the full concrete chain register → confirm → login → resolve →
`get_current_admin_user` succeeds. -/
theorem C7_registration_role_escalates_to_admin :
    register_user [] malloryCreate = .ok ([mallory0], mallory0)
    ∧ confirmed_email [mallory0] (create_email_token "mallory@example.com" 0)
        0 = .ok ([mallory1], "Електронну пошту підтверджено")
    ∧ login_user [mallory1] "mallory" "pw" 100 3600 =
        .ok (create_access_token "mallory" 100 3600)
    ∧ get_current_user [mallory1] emptyRedis 100
        (create_access_token "mallory" 100 3600) =
        .ok (mallory1, cacheAfter mallory1 100, [Lookup.byUsername "mallory"])
    ∧ get_current_admin_user mallory1 = .ok mallory1 :=
  ⟨rfl, rfl, rfl, rfl, rfl⟩
